import Mathlib

/-!
Verification of the LIFAair purifier codec (`broadlink/purifier.py`).

The Python module is embedded shallowly:
* byte buffers are `List Nat` (each entry a byte value);
* Python exceptions are modelled by `Except DecodeError`; indexing a
  `bytes` object out of range raises `IndexError`, modelled by
  `DecodeError.indexError`;
* the Python `float` division `raw / 10.0` is modelled over `ℚ`
  (the values involved are exact);
* the external transport (`send_packet`, `decrypt`) and the error table
  (`exceptions.check_error`) are collaborators outside the source file;
  `decrypt` is a function parameter and `check_error` is modelled from
  the spec.
-/

/-- Modes of the fan, mirroring the Python `FanMode` enum. -/
inductive FanMode where
  | OFF
  | AUTO
  | NIGHT
  | TURBO
  | ANTI_ALLERGY
  | MANUAL
  | UNKNOWN
  deriving DecidableEq, BEq, Repr

/-- Integer values of the Python `FanMode` IntEnum members. -/
def FanMode.val : FanMode → Int
  | .OFF => 0
  | .AUTO => 1
  | .NIGHT => 2
  | .TURBO => 3
  | .ANTI_ALLERGY => 4
  | .MANUAL => 5
  | .UNKNOWN => -1

/-- Errors an operation can surface.  `protocolError` is the spec's
`ProtocolError`; `indexError` models a Python `IndexError` from an
out-of-range `bytes` read; `deviceError` models the `DeviceError`
raised by the external error-code check. -/
inductive DecodeError where
  | protocolError
  | indexError
  | deviceError
  deriving DecidableEq, Repr

/-- Decidable equality of results, used to evaluate concrete runs of
the codec inside proofs. -/
instance {ε α : Type} [DecidableEq ε] [DecidableEq α] : DecidableEq (Except ε α)
  | .error a, .error b => decidable_of_iff (a = b) (by simp)
  | .error _, .ok _ => .isFalse (by simp)
  | .ok _, .error _ => .isFalse (by simp)
  | .ok a, .ok b => decidable_of_iff (a = b) (by simp)

/-- Raw fields extracted by `_decode_state_raw` (the Python dict it
returns, one field per key, in source order). -/
structure RawState where
  temperature : Nat
  humidity : Nat
  co2 : Nat
  tvoc : Nat
  pm10 : Nat
  pm2_5 : Nat
  pm1 : Nat
  fan_state : Nat
  fan_speed : Nat
  fan_flags : Nat
  deriving DecidableEq, Repr

/-- Decoded state returned by `_decode_state` (the Python dict it
returns, one field per key, in source order).  `none` models the
Python `None` used when the main unit is offline. -/
structure PurifierState where
  temperature : Option ℚ
  humidity : Option Nat
  co2 : Nat
  tvoc : Nat
  pm10 : Nat
  pm2_5 : Nat
  pm1 : Nat
  fan_mode : Option FanMode
  fan_speed : Nat
  deriving DecidableEq, Repr

/-- The `FAN_STATE_TO_MODE` dict: raw fan-state byte to mode; the entry
for `0x01` holds `none` (fan offline sentinel). -/
def FAN_STATE_TO_MODE : List (Nat × Option FanMode) :=
  [(0x81, some .OFF),
   (0xA5, some .AUTO),
   (0x95, some .NIGHT),
   (0x8D, some .TURBO),
   (0x85, some .MANUAL),
   (0x01, none)]

/-- The `_Operation` enum member `SET_STATE`. -/
def Operation_SET_STATE : Nat := 1

/-- The `_Operation` enum member `GET_STATE`. -/
def Operation_GET_STATE : Nat := 2

/-- The `_Action` enum member `SET_FAN_SPEED`. -/
def Action_SET_FAN_SPEED : Nat := 1

/-- The `_Action` enum member `SET_FAN_MODE`. -/
def Action_SET_FAN_MODE : Nat := 2

/-- The `FAN_MODE_TO_ACTION_ARG` dict. -/
def FAN_MODE_TO_ACTION_ARG : List (FanMode × Nat) :=
  [(.OFF, 1),
   (.AUTO, 2),
   (.NIGHT, 6),
   (.TURBO, 7),
   (.ANTI_ALLERGY, 11)]

/-- Embedding of `_decode_fan_mode`: flag-bit override, then dict lookup
with default `UNKNOWN`.  The dict value for `0x01` is `None`, so the
lookup itself can produce `none` (offline). -/
def _decode_fan_mode (fan_state fan_flags : Nat) : Option FanMode :=
  if fan_flags &&& 0x40 = 0 then some .ANTI_ALLERGY
  else (FAN_STATE_TO_MODE.lookup fan_state).getD (some .UNKNOWN)

/-- Embedding of `_decode_state_raw`: fixed-offset reads from the
payload.  Any out-of-range read raises `IndexError` in Python, so the
result is `.error .indexError` unless every offset is in range. -/
def _decode_state_raw (data : List Nat) : Except DecodeError RawState :=
  match data.get? 27, data.get? 28, data.get? 29, data.get? 31, data.get? 32,
        data.get? 35, data.get? 36, data.get? 37, data.get? 38, data.get? 39,
        data.get? 40, data.get? 41, data.get? 42, data.get? 55, data.get? 56,
        data.get? 57 with
  | some b27, some b28, some b29, some b31, some b32, some b35, some b36,
    some b37, some b38, some b39, some b40, some b41, some b42, some b55,
    some b56, some b57 =>
      .ok ⟨b27 + 256 * b28, b29, b31 + 256 * b32, b35 + 256 * b36,
           b37 + 256 * b38, b39 + 256 * b40, b41 + 256 * b42, b55, b56, b57⟩
  | _, _, _, _, _, _, _, _, _, _, _, _, _, _, _, _ => .error .indexError

/-- Embedding of `_decode_state`: decode the raw fields, resolve the fan
mode, and assemble the state dict; temperature and humidity are `None`
when the fan mode resolves to the offline sentinel. -/
def _decode_state (data : List Nat) : Except DecodeError PurifierState :=
  match _decode_state_raw data with
  | .error err => .error err
  | .ok raw =>
      let fan_mode := _decode_fan_mode raw.fan_state raw.fan_flags
      let isOffline := fan_mode.isNone
      .ok ⟨if isOffline then none else some ((raw.temperature : ℚ) / 10),
           if isOffline then none else some raw.humidity,
           raw.co2, raw.tvoc * 10, raw.pm10, raw.pm2_5, raw.pm1,
           fan_mode, raw.fan_speed⟩

/-- Embedding of the packet-construction phase of `_send`: a 26-byte
zeroed buffer, header magic and opcode bytes, checksum over the buffer
seeded with `0xBEAF`, then the length field written last. -/
def _send_packet (operation action action_arg : Nat) : List Nat :=
  let packet := List.replicate 26 0
  let packet := packet.set 0x02 0xA5
  let packet := packet.set 0x03 0xA5
  let packet := packet.set 0x04 0x5A
  let packet := packet.set 0x05 0x5A
  let packet := packet.set 0x08 (operation &&& 0xFF)
  let packet := packet.set 0x0A 0x0C
  let packet := packet.set 0x0E (action &&& 0xFF)
  let packet := packet.set 0x0F (action_arg &&& 0xFF)
  let checksum := (packet.foldl (fun acc b => acc + b) 0xBEAF) &&& 0xFFFF
  let packet := packet.set 0x06 (checksum &&& 0xFF)
  let packet := packet.set 0x07 (checksum >>> 8)
  let packet_len := packet.length - 2
  let packet := packet.set 0x00 (packet_len &&& 0xFF)
  let packet := packet.set 0x01 (packet_len >>> 8)
  packet

/-- Modelled from the spec: `check_error` lives in the `exceptions`
module, which is not part of the source file; per the spec it raises
`DeviceError` exactly when the two-byte little-endian device error code
is non-zero. -/
def check_error (errcode : List Nat) : Except DecodeError Unit :=
  if (errcode.get? 0).getD 0 + 256 * ((errcode.get? 1).getD 0) ≠ 0 then
    .error .deviceError
  else .ok ()

/-- Embedding of the response phase of `_send`: check the device error
code in `resp[0x22:0x24]`, then decrypt `resp[0x38:]`.  `decrypt`
belongs to the external transport and is passed as a parameter. -/
def _send_response (decrypt : List Nat → List Nat) (resp : List Nat) :
    Except DecodeError (List Nat) :=
  match check_error ((resp.drop 0x22).take 2) with
  | .error err => .error err
  | .ok _ => .ok (decrypt (resp.drop 0x38))

/-- Full post-transport pipeline of every operation: `_send`'s response
phase followed by `_decode_state`. -/
def operation_result (decrypt : List Nat → List Nat) (resp : List Nat) :
    Except DecodeError PurifierState :=
  match _send_response decrypt resp with
  | .error err => .error err
  | .ok data => _decode_state data

/-- Outbound packet of `get_state` (action and argument default to 0). -/
def get_state_packet : List Nat :=
  _send_packet Operation_GET_STATE 0 0

/-- Outbound packet of `set_fan_speed`. -/
def set_fan_speed_packet (fan_speed : Nat) : List Nat :=
  _send_packet Operation_SET_STATE Action_SET_FAN_SPEED fan_speed

/-- Outbound packet of `set_fan_mode`: delegate to `set_fan_speed 50`
for `MANUAL`, else a `SET_FAN_MODE` command when the dict has the mode,
else `get_state`'s packet. -/
def set_fan_mode_packet (fan_mode : FanMode) : List Nat :=
  if fan_mode = .MANUAL then set_fan_speed_packet 50
  else
    match FAN_MODE_TO_ACTION_ARG.lookup fan_mode with
    | some action_arg => _send_packet Operation_SET_STATE Action_SET_FAN_MODE action_arg
    | none => get_state_packet

/-- Reply decoding of `get_state`: `_decode_state` on the decrypted
reply. -/
def get_state_result (data : List Nat) : Except DecodeError PurifierState :=
  _decode_state data

/-- Reply decoding of `set_fan_speed`: `_decode_state` on the decrypted
reply (the speed does not influence decoding). -/
def set_fan_speed_result (fan_speed : Nat) (data : List Nat) :
    Except DecodeError PurifierState :=
  _decode_state data

/-- Reply decoding of `set_fan_mode`, following the same branch
structure as the packet construction. -/
def set_fan_mode_result (fan_mode : FanMode) (data : List Nat) :
    Except DecodeError PurifierState :=
  if fan_mode = .MANUAL then set_fan_speed_result 50 data
  else
    match FAN_MODE_TO_ACTION_ARG.lookup fan_mode with
    | some _ => _decode_state data
    | none => get_state_result data

/-- Byte of a payload at an index, defaulting to 0 (used only to state
theorems about in-range reads). -/
def byteAt (data : List Nat) (i : Nat) : Nat :=
  (data.get? i).getD 0

/-- Checksum the spec describes: seed `0xBEAF` plus the sum of the 26
bytes with the checksum and length bytes treated as zero, mod 65536. -/
def checksumSpec (packet : List Nat) : Nat :=
  (0xBEAF + ((((packet.set 0 0).set 1 0).set 6 0).set 7 0).sum) % 65536

theorem byteAt_get? (data : List Nat) (i : Nat) (h : i < data.length) :
    data.get? i = some (byteAt data i) := by
  unfold byteAt
  cases hg : data.get? i with
  | none => exact absurd (List.get?_eq_none.mp hg) (by omega)
  | some v => rfl

theorem decode_raw_ok (data : List Nat) (h : 58 ≤ data.length) :
    _decode_state_raw data =
      .ok ⟨byteAt data 27 + 256 * byteAt data 28, byteAt data 29,
           byteAt data 31 + 256 * byteAt data 32,
           byteAt data 35 + 256 * byteAt data 36,
           byteAt data 37 + 256 * byteAt data 38,
           byteAt data 39 + 256 * byteAt data 40,
           byteAt data 41 + 256 * byteAt data 42,
           byteAt data 55, byteAt data 56, byteAt data 57⟩ := by
  unfold _decode_state_raw
  rw [byteAt_get? data 27 (by omega), byteAt_get? data 28 (by omega),
      byteAt_get? data 29 (by omega), byteAt_get? data 31 (by omega),
      byteAt_get? data 32 (by omega), byteAt_get? data 35 (by omega),
      byteAt_get? data 36 (by omega), byteAt_get? data 37 (by omega),
      byteAt_get? data 38 (by omega), byteAt_get? data 39 (by omega),
      byteAt_get? data 40 (by omega), byteAt_get? data 41 (by omega),
      byteAt_get? data 42 (by omega), byteAt_get? data 55 (by omega),
      byteAt_get? data 56 (by omega), byteAt_get? data 57 (by omega)]

theorem decode_raw_ok_length (data : List Nat) (r : RawState)
    (h : _decode_state_raw data = .ok r) : 58 ≤ data.length := by
  unfold _decode_state_raw at h
  split at h
  case _ b27 b28 b29 b31 b32 b35 b36 b37 b38 b39 b40 b41 b42 b55 b56 b57
      h27 h28 h29 h31 h32 h35 h36 h37 h38 h39 h40 h41 h42 h55 h56 h57 =>
    obtain ⟨hlt, -⟩ := List.get?_eq_some.mp h57
    omega
  case _ => exact absurd h (by simp)

theorem decode_raw_total (data : List Nat) :
    (∃ r, _decode_state_raw data = .ok r) ∨
      _decode_state_raw data = .error .indexError := by
  unfold _decode_state_raw
  split
  · exact Or.inl ⟨_, rfl⟩
  · exact Or.inr rfl

/-- C1 (amended): decoding a payload shorter than 58 bytes fails with an
index-out-of-range error from the fixed-offset reads; no explicit length
check exists and `ProtocolError` is never produced. -/
theorem C1_short_payload_fails_with_index_error (data : List Nat)
    (h : data.length < 58) :
    _decode_state_raw data = .error .indexError := by
  rcases decode_raw_total data with ⟨r, hr⟩ | hr
  · exact absurd (decode_raw_ok_length data r hr) (by omega)
  · exact hr

/-- Witness for C1 at a concrete 10-byte payload. -/
theorem C1_short_payload_fails_with_index_error_witness :
    (List.replicate 10 0).length < 58 ∧
      _decode_state_raw (List.replicate 10 0) = .error .indexError :=
  ⟨by decide, C1_short_payload_fails_with_index_error (List.replicate 10 0) (by decide)⟩

/-- C1 counterexample: a 57-byte payload makes decoding fail with the
index error, not `ProtocolError` as the claim states. -/
theorem C1_counterexample :
    _decode_state_raw (List.replicate 57 0) = .error .indexError ∧
      _decode_state_raw (List.replicate 57 0) ≠ .error .protocolError := by
  decide

/-- C3: the fan-mode resolver is total: a clear 0x40 flag bit forces
`ANTI_ALLERGY`; otherwise the table maps 0x81/0xA5/0x95/0x8D/0x85 to
OFF/AUTO/NIGHT/TURBO/MANUAL, 0x01 to the absent (offline) value, and
every other byte to `UNKNOWN`. -/
theorem C3_fan_mode_resolver_total (fan_state fan_flags : Nat) :
    _decode_fan_mode fan_state fan_flags =
      if fan_flags &&& 0x40 = 0 then some FanMode.ANTI_ALLERGY
      else if fan_state = 0x81 then some FanMode.OFF
      else if fan_state = 0xA5 then some FanMode.AUTO
      else if fan_state = 0x95 then some FanMode.NIGHT
      else if fan_state = 0x8D then some FanMode.TURBO
      else if fan_state = 0x85 then some FanMode.MANUAL
      else if fan_state = 0x01 then none
      else some FanMode.UNKNOWN := by
  unfold _decode_fan_mode FAN_STATE_TO_MODE
  by_cases hf : fan_flags &&& 0x40 = 0
  · simp [hf]
  · simp only [hf, if_false, List.lookup]
    repeat' split
    all_goals simp_all

/-- C6: `set_fan_mode MANUAL` builds exactly the packet of
`set_fan_speed 50`, and decodes any reply identically to it. -/
theorem C6_manual_delegates_to_speed_50 :
    set_fan_mode_packet FanMode.MANUAL = set_fan_speed_packet 50 ∧
      ∀ data, set_fan_mode_result FanMode.MANUAL data =
        set_fan_speed_result 50 data :=
  ⟨rfl, fun _ => rfl⟩

/-- C7 counterexample: `MANUAL` has no entry in `FAN_MODE_TO_ACTION_ARG`,
yet `set_fan_mode MANUAL` does not send `get_state`'s packet (it sends a
SET_STATE command instead). -/
theorem C7_counterexample :
    FAN_MODE_TO_ACTION_ARG.lookup FanMode.MANUAL = none ∧
      set_fan_mode_packet FanMode.MANUAL ≠ get_state_packet ∧
      (set_fan_mode_packet FanMode.MANUAL).get? 8 = some Operation_SET_STATE := by
  decide

/-- C7 (amended): for every fan mode other than `MANUAL` with no entry
in the mode-to-argument table, `set_fan_mode` sends exactly the packet
of `get_state` (operation GET_STATE = 2, action 0, argument 0) and
decodes the reply the same way. -/
theorem C7_unmapped_mode_falls_back_to_get_state (m : FanMode)
    (h1 : m ≠ FanMode.MANUAL)
    (h2 : FAN_MODE_TO_ACTION_ARG.lookup m = none) :
    set_fan_mode_packet m = get_state_packet ∧
      get_state_packet = _send_packet 2 0 0 ∧
      ∀ data, set_fan_mode_result m data = get_state_result data := by
  refine ⟨?_, rfl, fun data => ?_⟩
  · unfold set_fan_mode_packet
    rw [if_neg h1, h2]
  · unfold set_fan_mode_result
    rw [if_neg h1, h2]

/-- Witness for C7 at `UNKNOWN`. -/
theorem C7_unmapped_mode_falls_back_to_get_state_witness :
    (FanMode.UNKNOWN ≠ FanMode.MANUAL ∧
        FAN_MODE_TO_ACTION_ARG.lookup FanMode.UNKNOWN = none) ∧
      set_fan_mode_packet FanMode.UNKNOWN = get_state_packet ∧
        get_state_packet = _send_packet 2 0 0 ∧
        ∀ data, set_fan_mode_result FanMode.UNKNOWN data = get_state_result data :=
  ⟨⟨by decide, by decide⟩,
    C7_unmapped_mode_falls_back_to_get_state FanMode.UNKNOWN (by decide) (by decide)⟩

theorem decode_state_ok (data : List Nat) (h : 58 ≤ data.length) :
    _decode_state data =
      .ok ⟨if (_decode_fan_mode (byteAt data 55) (byteAt data 57)).isNone then none
             else some (((byteAt data 27 + 256 * byteAt data 28 : ℕ) : ℚ) / 10),
           if (_decode_fan_mode (byteAt data 55) (byteAt data 57)).isNone then none
             else some (byteAt data 29),
           byteAt data 31 + 256 * byteAt data 32,
           (byteAt data 35 + 256 * byteAt data 36) * 10,
           byteAt data 37 + 256 * byteAt data 38,
           byteAt data 39 + 256 * byteAt data 40,
           byteAt data 41 + 256 * byteAt data 42,
           _decode_fan_mode (byteAt data 55) (byteAt data 57),
           byteAt data 56⟩ := by
  unfold _decode_state
  rw [decode_raw_ok data h]

/-- C8: when the device error code embedded in the response is flagged
by the error check, every operation aborts with `deviceError` before
decrypting or decoding anything: the result does not depend on the
decrypt function at all and no state is produced. -/
theorem C8_device_error_aborts (decrypt : List Nat → List Nat)
    (resp : List Nat)
    (h : check_error ((resp.drop 0x22).take 2) = .error .deviceError) :
    operation_result decrypt resp = .error .deviceError ∧
      ∀ decrypt₂, operation_result decrypt₂ resp = .error .deviceError := by
  have key : ∀ d, operation_result d resp = .error .deviceError := by
    intro d
    simp [operation_result, _send_response, h]
  exact ⟨key decrypt, key⟩

/-- Witness for C8: a response whose byte 0x22 is 1, decrypted by the
identity function. -/
theorem C8_device_error_aborts_witness :
    check_error (((((List.replicate 0x40 0).set 0x22 1)).drop 0x22).take 2) =
        .error .deviceError ∧
      operation_result id ((List.replicate 0x40 0).set 0x22 1) =
        .error .deviceError :=
  ⟨by decide,
   (C8_device_error_aborts id ((List.replicate 0x40 0).set 0x22 1) (by decide)).1⟩

/-- Synthetic payload for the C4 witness: temperature raw 245, humidity
41, co2 425, tvoc raw 15, pm 9/7/5, fan AUTO, speed 50. -/
def c4_payload : List Nat :=
  List.replicate 58 0 |>.set 27 245 |>.set 29 41 |>.set 31 169 |>.set 32 1
    |>.set 35 15 |>.set 37 9 |>.set 39 7 |>.set 41 5 |>.set 55 0xA5
    |>.set 56 50 |>.set 57 0xFF

/-- C4: for payloads of length at least 58 the decoded numeric fields
come from the fixed offsets: temperature (when present) is the
little-endian 16-bit value at 27 divided by 10, humidity (when present)
is byte 29, co2 and the pm fields are the 16-bit values at 31, 37, 39,
41 verbatim, and tvoc is the 16-bit value at 35 times 10. -/
theorem C4_fields_from_offsets (data : List Nat) (h : 58 ≤ data.length) :
    ∃ st, _decode_state data = .ok st ∧
      st.co2 = byteAt data 31 + 256 * byteAt data 32 ∧
      st.tvoc = (byteAt data 35 + 256 * byteAt data 36) * 10 ∧
      st.pm10 = byteAt data 37 + 256 * byteAt data 38 ∧
      st.pm2_5 = byteAt data 39 + 256 * byteAt data 40 ∧
      st.pm1 = byteAt data 41 + 256 * byteAt data 42 ∧
      (∀ t, st.temperature = some t →
        t = ((byteAt data 27 + 256 * byteAt data 28 : ℕ) : ℚ) / 10) ∧
      (∀ hu, st.humidity = some hu → hu = byteAt data 29) := by
  refine ⟨_, decode_state_ok data h, rfl, rfl, rfl, rfl, rfl, ?_, ?_⟩
  · intro t ht
    by_cases hoff : (_decode_fan_mode (byteAt data 55) (byteAt data 57)).isNone
    · simp [hoff] at ht
    · simp [hoff] at ht
      rw [← ht]
      push_cast
      ring
  · intro hu hhu
    by_cases hoff : (_decode_fan_mode (byteAt data 55) (byteAt data 57)).isNone
    · simp [hoff] at hhu
    · simp [hoff] at hhu
      exact hhu.symm

/-- Witness for C4 at `c4_payload`; the concrete conjuncts record that
temperature raw 245 decodes to 24.5 and tvoc raw 15 decodes to 150. -/
theorem C4_fields_from_offsets_witness :
    58 ≤ c4_payload.length ∧
      (∃ st, _decode_state c4_payload = .ok st ∧
        st.co2 = byteAt c4_payload 31 + 256 * byteAt c4_payload 32 ∧
        st.tvoc = (byteAt c4_payload 35 + 256 * byteAt c4_payload 36) * 10 ∧
        st.pm10 = byteAt c4_payload 37 + 256 * byteAt c4_payload 38 ∧
        st.pm2_5 = byteAt c4_payload 39 + 256 * byteAt c4_payload 40 ∧
        st.pm1 = byteAt c4_payload 41 + 256 * byteAt c4_payload 42 ∧
        (∀ t, st.temperature = some t →
          t = ((byteAt c4_payload 27 + 256 * byteAt c4_payload 28 : ℕ) : ℚ) / 10) ∧
        (∀ hu, st.humidity = some hu → hu = byteAt c4_payload 29)) ∧
      _decode_state c4_payload =
        .ok ⟨some (((245 : ℕ) : ℚ) / 10), some 41, 425, 150, 9, 7, 5,
             some FanMode.AUTO, 50⟩ ∧
      ((245 : ℕ) : ℚ) / 10 = 24.5 :=
  ⟨by decide, C4_fields_from_offsets c4_payload (by decide), by rfl, by norm_num⟩

/-- C5: for payloads of length at least 58, temperature, humidity and
fan_mode are simultaneously present or simultaneously absent (absent
exactly when the resolver returns the offline sentinel), while co2,
tvoc and the particulate fields are always populated from raw bytes. -/
theorem C5_presence_invariant (data : List Nat) (h : 58 ≤ data.length) :
    ∃ st, _decode_state data = .ok st ∧
      st.temperature.isSome = st.fan_mode.isSome ∧
      st.humidity.isSome = st.fan_mode.isSome ∧
      (st.fan_mode = none ↔
        _decode_fan_mode (byteAt data 55) (byteAt data 57) = none) ∧
      st.co2 = byteAt data 31 + 256 * byteAt data 32 ∧
      st.tvoc = (byteAt data 35 + 256 * byteAt data 36) * 10 ∧
      st.pm10 = byteAt data 37 + 256 * byteAt data 38 ∧
      st.pm2_5 = byteAt data 39 + 256 * byteAt data 40 ∧
      st.pm1 = byteAt data 41 + 256 * byteAt data 42 := by
  refine ⟨_, decode_state_ok data h, ?_, ?_, Iff.rfl, rfl, rfl, rfl, rfl, rfl⟩ <;>
    cases hc : _decode_fan_mode (byteAt data 55) (byteAt data 57) <;> simp [hc]

/-- Payload for the C5 witness: fan_state 0x01 (offline sentinel) with
the 0x40 flag bit set, sensor-head fields populated. -/
def c5_payload : List Nat :=
  List.replicate 58 0 |>.set 31 169 |>.set 32 1 |>.set 35 15 |>.set 37 9
    |>.set 39 7 |>.set 41 5 |>.set 55 1 |>.set 56 50 |>.set 57 0xFF

/-- Witness for C5 at `c5_payload`: temperature, humidity and fan_mode
all absent, sensor fields still populated. -/
theorem C5_presence_invariant_witness :
    58 ≤ c5_payload.length ∧
      (∃ st, _decode_state c5_payload = .ok st ∧
        st.temperature.isSome = st.fan_mode.isSome ∧
        st.humidity.isSome = st.fan_mode.isSome ∧
        (st.fan_mode = none ↔
          _decode_fan_mode (byteAt c5_payload 55) (byteAt c5_payload 57) = none) ∧
        st.co2 = byteAt c5_payload 31 + 256 * byteAt c5_payload 32 ∧
        st.tvoc = (byteAt c5_payload 35 + 256 * byteAt c5_payload 36) * 10 ∧
        st.pm10 = byteAt c5_payload 37 + 256 * byteAt c5_payload 38 ∧
        st.pm2_5 = byteAt c5_payload 39 + 256 * byteAt c5_payload 40 ∧
        st.pm1 = byteAt c5_payload 41 + 256 * byteAt c5_payload 42) ∧
      _decode_state c5_payload = .ok ⟨none, none, 425, 150, 9, 7, 5, none, 50⟩ :=
  ⟨by decide, C5_presence_invariant c5_payload (by decide), by decide⟩

/-- C9 counterexample: a 58-byte payload whose byte 56 is 200 decodes to
a state whose fan_speed is 200, outside the claimed 0 to 121 range. -/
theorem C9_counterexample :
    ¬ ∀ st, _decode_state ((List.replicate 58 0).set 56 200) = .ok st →
      st.fan_speed ≤ 121 := by
  intro hclaim
  exact absurd
    (hclaim ⟨some (((0 : ℕ) : ℚ) / 10), some 0, 0, 0, 0, 0, 0,
        some .ANTI_ALLERGY, 200⟩ (by rfl))
    (by decide)

/-- C9 (amended): for byte-valued payloads of length at least 58, the
decoded fan_speed is the raw byte at offset 56, hence in the range 0 to
255; the 0 to 121 range is a device-side contract the decoder does not
enforce. -/
theorem C9_fan_speed_is_raw_byte (data : List Nat) (h : 58 ≤ data.length)
    (hb : ∀ b ∈ data, b < 256) :
    ∃ st, _decode_state data = .ok st ∧
      st.fan_speed = byteAt data 56 ∧ st.fan_speed < 256 := by
  refine ⟨_, decode_state_ok data h, rfl, ?_⟩
  exact hb _ (List.get?_mem (byteAt_get? data 56 (by omega)))

/-- Witness for C9 at an all-zero 58-byte payload. -/
theorem C9_fan_speed_is_raw_byte_witness :
    (58 ≤ (List.replicate 58 0).length ∧
        ∀ b ∈ (List.replicate 58 (0 : Nat)), b < 256) ∧
      ∃ st, _decode_state (List.replicate 58 0) = .ok st ∧
        st.fan_speed = byteAt (List.replicate 58 0) 56 ∧ st.fan_speed < 256 :=
  ⟨⟨by decide, by decide⟩,
    C9_fan_speed_is_raw_byte (List.replicate 58 0) (by decide) (by decide)⟩

/-- C10: when bit 0x40 of the flags byte at offset 57 is clear, the
decoded state is never offline: fan_mode is `ANTI_ALLERGY` and
temperature and humidity are present, whatever the fan_state byte is. -/
theorem C10_clear_flag_masks_offline_sentinel (data : List Nat)
    (h : 58 ≤ data.length) (hflag : byteAt data 57 &&& 0x40 = 0) :
    ∃ st, _decode_state data = .ok st ∧
      st.fan_mode = some FanMode.ANTI_ALLERGY ∧
      st.temperature.isSome = true ∧ st.humidity.isSome = true := by
  have hfm : _decode_fan_mode (byteAt data 55) (byteAt data 57) =
      some FanMode.ANTI_ALLERGY := by
    unfold _decode_fan_mode
    rw [if_pos hflag]
  refine ⟨_, decode_state_ok data h, hfm, ?_, ?_⟩ <;> simp [hfm]

/-- Witness for C10: a payload whose fan_state byte is the offline
sentinel 0x01 but whose flags byte has bit 0x40 clear. -/
theorem C10_clear_flag_masks_offline_sentinel_witness :
    (58 ≤ ((List.replicate 58 0).set 55 1).length ∧
        byteAt ((List.replicate 58 0).set 55 1) 57 &&& 0x40 = 0) ∧
      ∃ st, _decode_state ((List.replicate 58 0).set 55 1) = .ok st ∧
        st.fan_mode = some FanMode.ANTI_ALLERGY ∧
        st.temperature.isSome = true ∧ st.humidity.isSome = true :=
  ⟨⟨by decide, by decide⟩,
    C10_clear_flag_masks_offline_sentinel ((List.replicate 58 0).set 55 1)
      (by decide) (by decide)⟩

theorem land255 (x : Nat) : x &&& 255 = x % 256 :=
  Nat.and_pow_two_sub_one_eq_mod x 8

theorem land65535 (x : Nat) : x &&& 65535 = x % 65536 :=
  Nat.and_pow_two_sub_one_eq_mod x 16

theorem shift8 (x : Nat) : x >>> 8 = x / 256 :=
  Nat.shiftRight_eq_div_pow x 8

/-- Checksum value of a built packet, as a closed form of the low bytes
of the three arguments. -/
def send_cks (op act arg : Nat) : Nat :=
  (0xBEAF + (0xA5 + 0xA5 + 0x5A + 0x5A + op % 256 + 0x0C + act % 256 + arg % 256)) % 65536

theorem send_packet_eq (op act arg : Nat) :
    _send_packet op act arg =
      [24, 0, 0xA5, 0xA5, 0x5A, 0x5A,
       send_cks op act arg % 256, send_cks op act arg / 256,
       op % 256, 0, 0x0C, 0, 0, 0, act % 256, arg % 256,
       0, 0, 0, 0, 0, 0, 0, 0, 0, 0] := by
  unfold _send_packet send_cks
  simp only [List.replicate, List.set, List.foldl, List.length, land255, land65535,
    shift8, List.cons.injEq, and_true, List.cons_ne_nil, true_and]
  omega

/-- C2: the built packet is 26 bytes; bytes 0x00-0x01 hold little-endian
24; bytes 0x02-0x05 hold the magic 0xA5,0xA5,0x5A,0x5A; bytes 0x06-0x07
hold, little-endian, `(0xBEAF + sum of the 26 bytes with the checksum
and length bytes treated as zero) mod 65536`; byte 0x08 is the low 8
bits of the operation, byte 0x0A is 0x0C, bytes 0x0E and 0x0F are the
low 8 bits of action and action argument; every other byte is zero. -/
theorem C2_packet_layout (operation action action_arg : Nat) :
    (_send_packet operation action action_arg).length = 26 ∧
    byteAt (_send_packet operation action action_arg) 0 +
      256 * byteAt (_send_packet operation action action_arg) 1 = 24 ∧
    byteAt (_send_packet operation action action_arg) 2 = 0xA5 ∧
    byteAt (_send_packet operation action action_arg) 3 = 0xA5 ∧
    byteAt (_send_packet operation action action_arg) 4 = 0x5A ∧
    byteAt (_send_packet operation action action_arg) 5 = 0x5A ∧
    byteAt (_send_packet operation action action_arg) 6 +
        256 * byteAt (_send_packet operation action action_arg) 7 =
      checksumSpec (_send_packet operation action action_arg) ∧
    byteAt (_send_packet operation action action_arg) 8 = operation % 256 ∧
    byteAt (_send_packet operation action action_arg) 10 = 0x0C ∧
    byteAt (_send_packet operation action action_arg) 14 = action % 256 ∧
    byteAt (_send_packet operation action action_arg) 15 = action_arg % 256 ∧
    ∀ i, i < 26 → i ∉ ([0, 1, 2, 3, 4, 5, 6, 7, 8, 10, 14, 15] : List Nat) →
      byteAt (_send_packet operation action action_arg) i = 0 := by
  rw [send_packet_eq operation action action_arg]
  refine ⟨rfl, rfl, rfl, rfl, rfl, rfl, ?_, rfl, rfl, rfl, rfl, ?_⟩
  · simp only [byteAt, List.get?, Option.getD, checksumSpec, List.set, List.sum,
      List.foldr]
    unfold send_cks
    omega
  · intro i h1 h2
    interval_cases i <;> simp_all [byteAt, List.get?]

/-- Witness for C2 at operation 1, action 2, argument 11 (the
`set_fan_mode AUTO`-shaped command). -/
theorem C2_packet_layout_witness :
    (_send_packet 1 2 11).length = 26 ∧
    byteAt (_send_packet 1 2 11) 0 + 256 * byteAt (_send_packet 1 2 11) 1 = 24 ∧
    byteAt (_send_packet 1 2 11) 2 = 0xA5 ∧
    byteAt (_send_packet 1 2 11) 3 = 0xA5 ∧
    byteAt (_send_packet 1 2 11) 4 = 0x5A ∧
    byteAt (_send_packet 1 2 11) 5 = 0x5A ∧
    byteAt (_send_packet 1 2 11) 6 + 256 * byteAt (_send_packet 1 2 11) 7 =
      checksumSpec (_send_packet 1 2 11) ∧
    byteAt (_send_packet 1 2 11) 8 = 1 % 256 ∧
    byteAt (_send_packet 1 2 11) 10 = 0x0C ∧
    byteAt (_send_packet 1 2 11) 14 = 2 % 256 ∧
    byteAt (_send_packet 1 2 11) 15 = 11 % 256 ∧
    ∀ i, i < 26 → i ∉ ([0, 1, 2, 3, 4, 5, 6, 7, 8, 10, 14, 15] : List Nat) →
      byteAt (_send_packet 1 2 11) i = 0 :=
  C2_packet_layout 1 2 11
